import Mathlib

/-!
Shallow embedding of `src/host_capabilities/mod.rs` of the policy-sdk-rust
repository: the versioned Sigstore-verification request types
(`SigstoreVerificationInputV1`, `SigstoreVerificationInputV2`), the canonical
`CallbackRequestType`, and the two version-to-canonical converters
(`impl Into<CallbackRequestType> for SigstoreVerificationInputV1` and
`impl From<SigstoreVerificationInputV2> for CallbackRequestType`).

Rust `String` becomes `String`, `Vec<T>` becomes `List T`,
`Option<T>` becomes `Option T`, and `HashMap<String, String>` becomes an
association list `AnnotationMap` (the converters carry the map verbatim, so
the representation of the map is irrelevant to every property proved here).
-/

/-- Modelled from the spec: the keyless identity descriptor
(`crate::host_capabilities::verification::KeylessInfo`) lives in
`verification.rs`, which is not under `src/`.  The spec describes it as a
named, serializable value identifying one accepted keyless-signing identity
(an OIDC subject and issuer), opaque to this core. -/
structure KeylessInfo where
  issuer : String
  subject : String
deriving DecidableEq

/-- Modelled from the spec: the keyless-prefix identity descriptor
(`crate::host_capabilities::verification::KeylessPrefixInfo`) lives in
`verification.rs`, which is not under `src/`.  The spec describes it as a
distinct descriptor type whose subject is matched by URL prefix. -/
structure KeylessPrefixInfo where
  issuer : String
  url_prefix : String
deriving DecidableEq

/-- `std::collections::HashMap<String, String>`, the type of the
`annotations` payload, embedded as an association list. -/
abbrev AnnotationMap := List (String × String)

/-- `enum SigstoreVerificationInputV1` (mod.rs lines 9-33). -/
inductive SigstoreVerificationInputV1 where
  | SigstorePubKeyVerify (image : String) (pub_keys : List String)
      (annotations : Option AnnotationMap)
  | SigstoreKeylessVerify (image : String) (keyless : List KeylessInfo)
      (annotations : Option AnnotationMap)
deriving DecidableEq

/-- `enum SigstoreVerificationInputV2` (mod.rs lines 50-100, serde-tagged
with `type`). -/
inductive SigstoreVerificationInputV2 where
  | SigstorePubKeyVerify (image : String) (pub_keys : List String)
      (annotations : Option AnnotationMap)
  | SigstoreKeylessVerify (image : String) (keyless : List KeylessInfo)
      (annotations : Option AnnotationMap)
  | SigstoreKeylessPrefixVerify (image : String)
      ( keyless_prefix : List KeylessPrefixInfo)
      (annotations : Option AnnotationMap)
  | SigstoreGithubActionsVerify (image : String) (owner : String)
      (repo : Option String) (annotations : Option AnnotationMap)
deriving DecidableEq

/-- `enum CallbackRequestType` (mod.rs lines 117-178): the canonical request
union the host dispatcher consumes. -/
inductive CallbackRequestType where
  | OciManifestDigest (image : String)
  | SigstorePubKeyVerify (image : String) (pub_keys : List String)
      (annotations : Option AnnotationMap)
  | SigstoreKeylessVerify (image : String) (keyless : List KeylessInfo)
      (annotations : Option AnnotationMap)
  | SigstoreKeylessPrefixVerify (image : String)
      ( keyless_prefix : List KeylessPrefixInfo)
      (annotations : Option AnnotationMap)
  | SigstoreGithubActionsVerify (image : String) (owner : String)
      (repo : Option String) (annotations : Option AnnotationMap)
  | DNSLookupHost (host : String)
deriving DecidableEq

/-- `impl Into<CallbackRequestType> for SigstoreVerificationInputV1`
(mod.rs lines 35-48): each arm rebuilds the same-named canonical variant
from the matched fields. -/
def SigstoreVerificationInputV1.into :
    SigstoreVerificationInputV1 → CallbackRequestType
  | .SigstorePubKeyVerify image pub_keys annotations =>
      .SigstorePubKeyVerify image pub_keys annotations
  | .SigstoreKeylessVerify image keyless annotations =>
      .SigstoreKeylessVerify image keyless annotations

/-- `impl From<SigstoreVerificationInputV2> for CallbackRequestType`
(mod.rs lines 102-115). -/
def CallbackRequestType.from_v2 :
    SigstoreVerificationInputV2 → CallbackRequestType
  | .SigstorePubKeyVerify image pub_keys annotations =>
      .SigstorePubKeyVerify image pub_keys annotations
  | .SigstoreKeylessVerify image keyless annotations =>
      .SigstoreKeylessVerify image keyless annotations
  | .SigstoreKeylessPrefixVerify image keyless_prefix annotations =>
      .SigstoreKeylessPrefixVerify image keyless_prefix annotations
  | .SigstoreGithubActionsVerify image owner repo annotations =>
      .SigstoreGithubActionsVerify image owner repo annotations

/-- Whether a canonical value is the `DNSLookupHost` variant. -/
def CallbackRequestType.isDNSLookupHost : CallbackRequestType → Bool
  | .DNSLookupHost _ => true
  | _ => false

/-- Whether a canonical value is the `OciManifestDigest` variant. -/
def CallbackRequestType.isOciManifestDigest : CallbackRequestType → Bool
  | .OciManifestDigest _ => true
  | _ => false

/-- The `annotations` field of a canonical value, when its variant has one. -/
def CallbackRequestType.annotationsField :
    CallbackRequestType → Option (Option AnnotationMap)
  | .OciManifestDigest _ => none
  | .SigstorePubKeyVerify _ _ a => some a
  | .SigstoreKeylessVerify _ _ a => some a
  | .SigstoreKeylessPrefixVerify _ _ a => some a
  | .SigstoreGithubActionsVerify _ _ _ a => some a
  | .DNSLookupHost _ => none

/-- The `annotations` field of a V1 value (every V1 variant has one). -/
def SigstoreVerificationInputV1.annotationsOf :
    SigstoreVerificationInputV1 → Option AnnotationMap
  | .SigstorePubKeyVerify _ _ a => a
  | .SigstoreKeylessVerify _ _ a => a

/-- The `annotations` field of a V2 value (every V2 variant has one). -/
def SigstoreVerificationInputV2.annotationsOf :
    SigstoreVerificationInputV2 → Option AnnotationMap
  | .SigstorePubKeyVerify _ _ a => a
  | .SigstoreKeylessVerify _ _ a => a
  | .SigstoreKeylessPrefixVerify _ _ a => a
  | .SigstoreGithubActionsVerify _ _ _ a => a

/-- Written from the spec's words for the refinement claim
("Superset monotonicity: every variant name present in version N is present
in version N+1 with an identical field set"): the embedding of a V1 value
into V2 as the same-named variant with the same fields.  That this
definition type-checks is itself the identical-field-set statement. -/
def v1_to_v2 : SigstoreVerificationInputV1 → SigstoreVerificationInputV2
  | .SigstorePubKeyVerify image pub_keys annotations =>
      .SigstorePubKeyVerify image pub_keys annotations
  | .SigstoreKeylessVerify image keyless annotations =>
      .SigstoreKeylessVerify image keyless annotations

/-- A self-describing tagged value, the decode-boundary input shape of §6 of
the spec (a JSON-like tree). -/
inductive Json where
  | null
  | str (s : String)
  | arr (xs : List Json)
  | obj (fields : List (String × Json))

/-- Field lookup in a decoded object. -/
def getField : List (String × Json) → String → Option Json
  | [], _ => none
  | (k, v) :: rest, key => if k = key then some v else getField rest key

/-- Expect a string payload. -/
def Json.asStr : Json → Option String
  | .str s => some s
  | _ => none

/-- Expect an array of strings (`Vec<String>`). -/
def Json.asStrList : Json → Option (List String)
  | .arr xs => xs.mapM Json.asStr
  | _ => none

/-- The error kinds of §7 of the spec. -/
inductive DecodeError where
  | MalformedRequest (msg : String)
  | UnsupportedVersion (msg : String)
deriving DecidableEq

/-- Whether a decode result is a returned `MalformedRequest` error value. -/
def failsMalformed {α : Type} : Except DecodeError α → Bool
  | .error (.MalformedRequest _) => true
  | _ => false

/-- A required `String` field: present and string-typed. -/
def reqStr (fs : List (String × Json)) (key : String) : Option String :=
  (getField fs key).bind Json.asStr

/-- An optional `String` field (`Option<String>`): absent or null means
`none`, otherwise it must be string-typed. -/
def optStr (fs : List (String × Json)) (key : String) : Option (Option String) :=
  match getField fs key with
  | none => some none
  | some Json.null => some none
  | some j => (Json.asStr j).map some

/-- A `HashMap<String, String>` payload: an object of string values. -/
def decodeAnnotationMap : Json → Option AnnotationMap
  | .obj fs => fs.mapM fun kv => (Json.asStr kv.2).map fun v => (kv.1, v)
  | _ => none

/-- The optional `annotations` field: absent or null means `none`. -/
def optAnnotations (fs : List (String × Json)) : Option (Option AnnotationMap) :=
  match getField fs "annotations" with
  | none => some none
  | some Json.null => some none
  | some j => (decodeAnnotationMap j).map some

/-- A `KeylessInfo` payload: object with string `issuer` and `subject`. -/
def decodeKeylessInfo : Json → Option KeylessInfo
  | .obj fs => (reqStr fs "issuer").bind fun issuer =>
      (reqStr fs "subject").map fun subject => ⟨issuer, subject⟩
  | _ => none

/-- A `Vec<KeylessInfo>` payload. -/
def decodeKeylessList : Json → Option (List KeylessInfo)
  | .arr xs => xs.mapM decodeKeylessInfo
  | _ => none

/-- A `KeylessPrefixInfo` payload: object with string `issuer` and
`url_prefix`. -/
def decodeKeylessPrefixInfo : Json → Option KeylessPrefixInfo
  | .obj fs => (reqStr fs "issuer").bind fun issuer =>
      (reqStr fs "url_prefix").map fun p => ⟨issuer, p⟩
  | _ => none

/-- A `Vec<KeylessPrefixInfo>` payload. -/
def decodeKeylessPrefixList : Json → Option (List KeylessPrefixInfo)
  | .arr xs => xs.mapM decodeKeylessPrefixInfo
  | _ => none

/-- The field struct of a `SigstorePubKeyVerify` request, V2 shape. -/
def armPubKeyV2 (fs : List (String × Json)) :
    Option SigstoreVerificationInputV2 :=
  (reqStr fs "image").bind fun image =>
  ((getField fs "pub_keys").bind Json.asStrList).bind fun ks =>
  (optAnnotations fs).map fun anns =>
  .SigstorePubKeyVerify image ks anns

/-- The field struct of a `SigstoreKeylessVerify` request, V2 shape. -/
def armKeylessV2 (fs : List (String × Json)) :
    Option SigstoreVerificationInputV2 :=
  (reqStr fs "image").bind fun image =>
  ((getField fs "keyless").bind decodeKeylessList).bind fun kl =>
  (optAnnotations fs).map fun anns =>
  .SigstoreKeylessVerify image kl anns

/-- The field struct of a `SigstoreKeylessPrefixVerify` request. -/
def armKeylessPrefixV2 (fs : List (String × Json)) :
    Option SigstoreVerificationInputV2 :=
  (reqStr fs "image").bind fun image =>
  ((getField fs "keyless_prefix").bind decodeKeylessPrefixList).bind fun kl =>
  (optAnnotations fs).map fun anns =>
  .SigstoreKeylessPrefixVerify image kl anns

/-- The field struct of a `SigstoreGithubActionsVerify` request. -/
def armGithubV2 (fs : List (String × Json)) :
    Option SigstoreVerificationInputV2 :=
  (reqStr fs "image").bind fun image =>
  (reqStr fs "owner").bind fun owner =>
  (optStr fs "repo").bind fun repo =>
  (optAnnotations fs).map fun anns =>
  .SigstoreGithubActionsVerify image owner repo anns

/-- The variant tags of `SigstoreVerificationInputV1`. -/
def v1Tags : List String :=
  ["SigstorePubKeyVerify", "SigstoreKeylessVerify"]

/-- The variant tags of `SigstoreVerificationInputV2`. -/
def v2Tags : List String :=
  ["SigstorePubKeyVerify", "SigstoreKeylessVerify",
   "SigstoreKeylessPrefixVerify", "SigstoreGithubActionsVerify"]

/-- Dispatch on the V2 `type` tag: an unrecognized tag decodes to nothing. -/
def v2arm (t : String) (fs : List (String × Json)) :
    Option SigstoreVerificationInputV2 :=
  if t = "SigstorePubKeyVerify" then armPubKeyV2 fs
  else if t = "SigstoreKeylessVerify" then armKeylessV2 fs
  else if t = "SigstoreKeylessPrefixVerify" then armKeylessPrefixV2 fs
  else if t = "SigstoreGithubActionsVerify" then armGithubV2 fs
  else none

/-- Modelled from the spec: the serde-derived deserializer for
`SigstoreVerificationInputV2` (the `#[derive(Deserialize)]` with
`#[serde(tag = "type")]` generates code that is not under `src/`).  Per §4.1
and §6 of the spec it reads an internally-tagged object — an explicit `type`
field names the variant — and fails with a returned `MalformedRequest` error
when the tag is unrecognized or a required field is missing or mistyped. -/
def decodeV2 : Json → Except DecodeError SigstoreVerificationInputV2
  | .obj fs =>
    match getField fs "type" with
    | some (Json.str t) =>
      match v2arm t fs with
      | some v => .ok v
      | none => .error (.MalformedRequest t)
    | _ => .error (.MalformedRequest "missing type tag")
  | _ => .error (.MalformedRequest "expected an object")

/-- The V1 field structs, dispatched on the external tag. -/
def armPubKeyV1 (fs : List (String × Json)) :
    Option SigstoreVerificationInputV1 :=
  (reqStr fs "image").bind fun image =>
  ((getField fs "pub_keys").bind Json.asStrList).bind fun ks =>
  (optAnnotations fs).map fun anns =>
  .SigstorePubKeyVerify image ks anns

/-- The V1 `SigstoreKeylessVerify` field struct. -/
def armKeylessV1 (fs : List (String × Json)) :
    Option SigstoreVerificationInputV1 :=
  (reqStr fs "image").bind fun image =>
  ((getField fs "keyless").bind decodeKeylessList).bind fun kl =>
  (optAnnotations fs).map fun anns =>
  .SigstoreKeylessVerify image kl anns

/-- Dispatch on the V1 external tag. -/
def v1arm (t : String) (payload : Json) :
    Option SigstoreVerificationInputV1 :=
  match payload with
  | .obj fs =>
    if t = "SigstorePubKeyVerify" then armPubKeyV1 fs
    else if t = "SigstoreKeylessVerify" then armKeylessV1 fs
    else none
  | _ => none

/-- Modelled from the spec: the serde-derived deserializer for
`SigstoreVerificationInputV1` (the `#[derive(Deserialize)]` generates code
that is not under `src/`).  Per §6 of the spec it reads an externally-tagged
union — a wrapper object whose single key is the variant name, value the
field struct — and fails with a returned `MalformedRequest` error when the
tag is unrecognized or a required field is missing or mistyped. -/
def decodeV1 : Json → Except DecodeError SigstoreVerificationInputV1
  | .obj [(tag, payload)] =>
    match v1arm tag payload with
    | some v => .ok v
    | none => .error (.MalformedRequest tag)
  | _ => .error (.MalformedRequest "expected a single-key object")

/-- If the required `image` field does not decode to a string, every V2
variant arm rejects the field struct. -/
theorem v2arm_image_none (t : String) (fs : List (String × Json))
    (h : reqStr fs "image" = none) : v2arm t fs = none := by
  unfold v2arm armPubKeyV2 armKeylessV2 armKeylessPrefixV2 armGithubV2
  split_ifs <;> simp [h]

/-- If the required `image` field does not decode to a string, every V1
variant arm rejects the field struct. -/
theorem v1arm_image_none (t : String) (fs : List (String × Json))
    (h : reqStr fs "image" = none) : v1arm t (Json.obj fs) = none := by
  unfold v1arm armPubKeyV1 armKeylessV1
  split_ifs <;> simp [h]

/-- C1: converting any value of `SigstoreVerificationInputV1` or
`SigstoreVerificationInputV2` to `CallbackRequestType` yields the canonical
variant of the same name with every field (`image`, `pub_keys`, `keyless`,
`keyless_prefix`, `owner`, `repo`, `annotations`) structurally equal to the
original, sequences in their original order. -/
theorem into_preserves_all_fields :
    (∀ (image : String) (ks : List String) (anns : Option AnnotationMap),
      (SigstoreVerificationInputV1.SigstorePubKeyVerify image ks anns).into
        = CallbackRequestType.SigstorePubKeyVerify image ks anns) ∧
    (∀ (image : String) (kl : List KeylessInfo) (anns : Option AnnotationMap),
      (SigstoreVerificationInputV1.SigstoreKeylessVerify image kl anns).into
        = CallbackRequestType.SigstoreKeylessVerify image kl anns) ∧
    (∀ (image : String) (ks : List String) (anns : Option AnnotationMap),
      CallbackRequestType.from_v2
          (SigstoreVerificationInputV2.SigstorePubKeyVerify image ks anns)
        = CallbackRequestType.SigstorePubKeyVerify image ks anns) ∧
    (∀ (image : String) (kl : List KeylessInfo) (anns : Option AnnotationMap),
      CallbackRequestType.from_v2
          (SigstoreVerificationInputV2.SigstoreKeylessVerify image kl anns)
        = CallbackRequestType.SigstoreKeylessVerify image kl anns) ∧
    (∀ (image : String) (kp : List KeylessPrefixInfo)
        (anns : Option AnnotationMap),
      CallbackRequestType.from_v2
          (SigstoreVerificationInputV2.SigstoreKeylessPrefixVerify image kp anns)
        = CallbackRequestType.SigstoreKeylessPrefixVerify image kp anns) ∧
    (∀ (image owner : String) (repo : Option String)
        (anns : Option AnnotationMap),
      CallbackRequestType.from_v2
          (SigstoreVerificationInputV2.SigstoreGithubActionsVerify
            image owner repo anns)
        = CallbackRequestType.SigstoreGithubActionsVerify
            image owner repo anns) :=
  ⟨fun _ _ _ => rfl, fun _ _ _ => rfl, fun _ _ _ => rfl,
   fun _ _ _ => rfl, fun _ _ _ => rfl, fun _ _ _ _ => rfl⟩

/-- C2: the two version-to-canonical conversions are total functions on
their whole domain — for every versioned value there is a canonical value
the conversion produces (no error path, no partiality). -/
theorem conversions_total_infallible :
    (∀ v : SigstoreVerificationInputV1,
      ∃ c : CallbackRequestType, v.into = c) ∧
    (∀ v : SigstoreVerificationInputV2,
      ∃ c : CallbackRequestType, CallbackRequestType.from_v2 v = c) :=
  ⟨fun v => ⟨v.into, rfl⟩, fun v => ⟨CallbackRequestType.from_v2 v, rfl⟩⟩

/-- C3: every V1 variant exists in V2 with an identical field set (witnessed
by the field-preserving embedding `v1_to_v2`), and embedding a V1 value into
V2 and then converting to canonical agrees with converting directly. -/
theorem v1_embeds_in_v2 :
    (∀ (image : String) (ks : List String) (anns : Option AnnotationMap),
      v1_to_v2 (SigstoreVerificationInputV1.SigstorePubKeyVerify image ks anns)
        = SigstoreVerificationInputV2.SigstorePubKeyVerify image ks anns) ∧
    (∀ (image : String) (kl : List KeylessInfo) (anns : Option AnnotationMap),
      v1_to_v2 (SigstoreVerificationInputV1.SigstoreKeylessVerify image kl anns)
        = SigstoreVerificationInputV2.SigstoreKeylessVerify image kl anns) ∧
    (∀ v : SigstoreVerificationInputV1,
      CallbackRequestType.from_v2 (v1_to_v2 v) = v.into) :=
  ⟨fun _ _ _ => rfl, fun _ _ _ => rfl, fun v => by cases v <;> rfl⟩

/-- C4: no versioned input converts to the `DNSLookupHost` canonical
variant — the DNS capability has no constructor in V1 or V2. -/
theorem no_dns_from_versioned :
    (∀ v : SigstoreVerificationInputV1,
      (v.into).isDNSLookupHost = false) ∧
    (∀ v : SigstoreVerificationInputV2,
      (CallbackRequestType.from_v2 v).isDNSLookupHost = false) :=
  ⟨fun v => by cases v <;> rfl, fun v => by cases v <;> rfl⟩

/-- C6: the concrete V1 `SigstorePubKeyVerify` value of the spec's scenario
converts to the canonical variant with identical image, the identical
two-element `pub_keys` sequence in order, and absent annotations. -/
theorem scenario_v1_pubkey :
    (SigstoreVerificationInputV1.SigstorePubKeyVerify
        "reg/busybox:1.0.0" ["PEM1", "PEM2"] none).into
      = CallbackRequestType.SigstorePubKeyVerify
          "reg/busybox:1.0.0" ["PEM1", "PEM2"] none := rfl

/-- C7: the concrete V2 `SigstoreGithubActionsVerify` value of the spec's
scenario converts to canonical form preserving owner, absent repo, and the
single annotation pair. -/
theorem scenario_v2_github :
    CallbackRequestType.from_v2
        (SigstoreVerificationInputV2.SigstoreGithubActionsVerify
          "reg/app:latest" "octocat" none (some [("env", "prod")]))
      = CallbackRequestType.SigstoreGithubActionsVerify
          "reg/app:latest" "octocat" none (some [("env", "prod")]) := rfl

/-- C8: both conversions carry the `annotations` field through unchanged:
`none` stays `none` and `some m` stays `some m` with the same map `m`, the
empty map included — the absent constraint and the empty set are never
collapsed. -/
theorem annotations_kept_distinct :
    (∀ v : SigstoreVerificationInputV1,
      (v.into).annotationsField = some v.annotationsOf) ∧
    (∀ v : SigstoreVerificationInputV2,
      (CallbackRequestType.from_v2 v).annotationsField
        = some v.annotationsOf) ∧
    (∀ (image : String) (ks : List String),
      ((SigstoreVerificationInputV1.SigstorePubKeyVerify
          image ks none).into).annotationsField = some none) ∧
    (∀ (image : String) (ks : List String),
      ((SigstoreVerificationInputV1.SigstorePubKeyVerify
          image ks (some [])).into).annotationsField = some (some [])) :=
  ⟨fun v => by cases v <;> rfl, fun v => by cases v <;> rfl,
   fun _ _ => rfl, fun _ _ => rfl⟩

/-- C9: the conversions are deterministic functions of their input alone —
structurally equal inputs yield structurally equal canonical outputs. -/
theorem conversions_deterministic :
    (∀ v w : SigstoreVerificationInputV1, v = w → v.into = w.into) ∧
    (∀ v w : SigstoreVerificationInputV2, v = w →
      CallbackRequestType.from_v2 v = CallbackRequestType.from_v2 w) :=
  ⟨fun _ _ h => by rw [h], fun _ _ h => by rw [h]⟩

/-- C9 witness: the determinism theorem applied at concrete inputs. -/
theorem conversions_deterministic_witness :
    (SigstoreVerificationInputV1.SigstorePubKeyVerify "a" ["k"] none).into
      = (SigstoreVerificationInputV1.SigstorePubKeyVerify "a" ["k"] none).into
    ∧ CallbackRequestType.from_v2
        (SigstoreVerificationInputV2.SigstoreGithubActionsVerify
          "a" "o" none none)
      = CallbackRequestType.from_v2
          (SigstoreVerificationInputV2.SigstoreGithubActionsVerify
            "a" "o" none none) :=
  ⟨conversions_deterministic.1 _ _ rfl, conversions_deterministic.2 _ _ rfl⟩

/-- C10: no versioned input converts to the `OciManifestDigest` canonical
variant — the manifest-digest capability, like DNS lookup, has no
constructor in V1 or V2. -/
theorem no_manifest_digest_from_versioned :
    (∀ v : SigstoreVerificationInputV1,
      (v.into).isOciManifestDigest = false) ∧
    (∀ v : SigstoreVerificationInputV2,
      (CallbackRequestType.from_v2 v).isOciManifestDigest = false) :=
  ⟨fun v => by cases v <;> rfl, fun v => by cases v <;> rfl⟩

/-- C5: decoding untrusted input into a versioned request type fails with a
returned `MalformedRequest` error value — not a crash and not a
partially-populated value — whenever the variant tag is unrecognized within
the known version, or the required `image` field is missing or mistyped, or
any variant-specific required field (`pub_keys`, `keyless`,
`keyless_prefix`, `owner`, in V2 and in V1) is missing or mistyped. -/
theorem decode_rejects_malformed :
    (∀ (fs : List (String × Json)) (t : String),
      getField fs "type" = some (Json.str t) → t ∉ v2Tags →
      failsMalformed (decodeV2 (Json.obj fs)) = true) ∧
    (∀ (fs : List (String × Json)) (t : String),
      getField fs "type" = some (Json.str t) → reqStr fs "image" = none →
      failsMalformed (decodeV2 (Json.obj fs)) = true) ∧
    (∀ fs : List (String × Json),
      getField fs "type" = some (Json.str "SigstorePubKeyVerify") →
      (getField fs "pub_keys").bind Json.asStrList = none →
      failsMalformed (decodeV2 (Json.obj fs)) = true) ∧
    (∀ fs : List (String × Json),
      getField fs "type" = some (Json.str "SigstoreKeylessVerify") →
      (getField fs "keyless").bind decodeKeylessList = none →
      failsMalformed (decodeV2 (Json.obj fs)) = true) ∧
    (∀ fs : List (String × Json),
      getField fs "type" = some (Json.str "SigstoreKeylessPrefixVerify") →
      (getField fs "keyless_prefix").bind decodeKeylessPrefixList = none →
      failsMalformed (decodeV2 (Json.obj fs)) = true) ∧
    (∀ fs : List (String × Json),
      getField fs "type" = some (Json.str "SigstoreGithubActionsVerify") →
      reqStr fs "owner" = none →
      failsMalformed (decodeV2 (Json.obj fs)) = true) ∧
    (∀ (tag : String) (fs : List (String × Json)),
      tag ∉ v1Tags →
      failsMalformed (decodeV1 (Json.obj [(tag, Json.obj fs)])) = true) ∧
    (∀ (tag : String) (fs : List (String × Json)),
      reqStr fs "image" = none →
      failsMalformed (decodeV1 (Json.obj [(tag, Json.obj fs)])) = true) ∧
    (∀ fs : List (String × Json),
      (getField fs "pub_keys").bind Json.asStrList = none →
      failsMalformed (decodeV1
        (Json.obj [("SigstorePubKeyVerify", Json.obj fs)])) = true) ∧
    (∀ fs : List (String × Json),
      (getField fs "keyless").bind decodeKeylessList = none →
      failsMalformed (decodeV1
        (Json.obj [("SigstoreKeylessVerify", Json.obj fs)])) = true) := by
  refine ⟨?_, ?_, ?_, ?_, ?_, ?_, ?_, ?_, ?_, ?_⟩
  · intro fs t htag hmem
    simp [v2Tags] at hmem
    have harm : v2arm t fs = none := by
      simp [v2arm, hmem.1, hmem.2.1, hmem.2.2.1, hmem.2.2.2]
    simp [decodeV2, htag, harm, failsMalformed]
  · intro fs t htag himg
    simp [decodeV2, htag, v2arm_image_none t fs himg, failsMalformed]
  · intro fs htag hk
    have harm : v2arm "SigstorePubKeyVerify" fs = none := by
      cases himg : reqStr fs "image" <;> simp [v2arm, armPubKeyV2, himg, hk]
    simp [decodeV2, htag, harm, failsMalformed]
  · intro fs htag hk
    have harm : v2arm "SigstoreKeylessVerify" fs = none := by
      cases himg : reqStr fs "image" <;> simp [v2arm, armKeylessV2, himg, hk]
    simp [decodeV2, htag, harm, failsMalformed]
  · intro fs htag hk
    have harm : v2arm "SigstoreKeylessPrefixVerify" fs = none := by
      cases himg : reqStr fs "image" <;>
        simp [v2arm, armKeylessPrefixV2, himg, hk]
    simp [decodeV2, htag, harm, failsMalformed]
  · intro fs htag hk
    have harm : v2arm "SigstoreGithubActionsVerify" fs = none := by
      cases himg : reqStr fs "image" <;> simp [v2arm, armGithubV2, himg, hk]
    simp [decodeV2, htag, harm, failsMalformed]
  · intro tag fs hmem
    simp [v1Tags] at hmem
    have harm : v1arm tag (Json.obj fs) = none := by
      simp [v1arm, hmem.1, hmem.2]
    simp [decodeV1, harm, failsMalformed]
  · intro tag fs himg
    simp [decodeV1, v1arm_image_none tag fs himg, failsMalformed]
  · intro fs hk
    have harm : v1arm "SigstorePubKeyVerify" (Json.obj fs) = none := by
      cases himg : reqStr fs "image" <;> simp [v1arm, armPubKeyV1, himg, hk]
    simp [decodeV1, harm, failsMalformed]
  · intro fs hk
    have harm : v1arm "SigstoreKeylessVerify" (Json.obj fs) = none := by
      cases himg : reqStr fs "image" <;> simp [v1arm, armKeylessV1, himg, hk]
    simp [decodeV1, harm, failsMalformed]

/-- C5 witness: the rejection theorem applied at ten concrete malformed
payloads — an unknown V2 tag, a V2 request missing `image`, a V2 request
whose `pub_keys` is not an array, a V2 request missing `keyless`, a V2
request whose `keyless_prefix` is mistyped, a V2 request missing `owner`,
an unknown V1 tag, a V1 request whose `image` is mistyped, a V1 request
whose `pub_keys` is mistyped, and a V1 request missing `keyless`. -/
theorem decode_rejects_malformed_witness :
    failsMalformed (decodeV2 (Json.obj [("type", Json.str "Nope")])) = true ∧
    failsMalformed (decodeV2
      (Json.obj [("type", Json.str "SigstoreKeylessVerify")])) = true ∧
    failsMalformed (decodeV2
      (Json.obj [("type", Json.str "SigstorePubKeyVerify"),
                 ("image", Json.str "img"),
                 ("pub_keys", Json.str "oops")])) = true ∧
    failsMalformed (decodeV2
      (Json.obj [("type", Json.str "SigstoreKeylessVerify"),
                 ("image", Json.str "img")])) = true ∧
    failsMalformed (decodeV2
      (Json.obj [("type", Json.str "SigstoreKeylessPrefixVerify"),
                 ("image", Json.str "img"),
                 ("keyless_prefix", Json.null)])) = true ∧
    failsMalformed (decodeV2
      (Json.obj [("type", Json.str "SigstoreGithubActionsVerify"),
                 ("image", Json.str "img")])) = true ∧
    failsMalformed (decodeV1 (Json.obj [("Nope", Json.obj [])])) = true ∧
    failsMalformed (decodeV1
      (Json.obj [("SigstorePubKeyVerify",
                  Json.obj [("image", Json.arr [])])])) = true ∧
    failsMalformed (decodeV1
      (Json.obj [("SigstorePubKeyVerify",
                  Json.obj [("image", Json.str "img"),
                            ("pub_keys", Json.null)])])) = true ∧
    failsMalformed (decodeV1
      (Json.obj [("SigstoreKeylessVerify",
                  Json.obj [("image", Json.str "img")])])) = true :=
  ⟨decode_rejects_malformed.1 [("type", Json.str "Nope")] "Nope"
      rfl (by decide),
   decode_rejects_malformed.2.1 [("type", Json.str "SigstoreKeylessVerify")]
      "SigstoreKeylessVerify" rfl rfl,
   decode_rejects_malformed.2.2.1
      [("type", Json.str "SigstorePubKeyVerify"),
       ("image", Json.str "img"), ("pub_keys", Json.str "oops")] rfl rfl,
   decode_rejects_malformed.2.2.2.1
      [("type", Json.str "SigstoreKeylessVerify"),
       ("image", Json.str "img")] rfl rfl,
   decode_rejects_malformed.2.2.2.2.1
      [("type", Json.str "SigstoreKeylessPrefixVerify"),
       ("image", Json.str "img"), ("keyless_prefix", Json.null)] rfl rfl,
   decode_rejects_malformed.2.2.2.2.2.1
      [("type", Json.str "SigstoreGithubActionsVerify"),
       ("image", Json.str "img")] rfl rfl,
   decode_rejects_malformed.2.2.2.2.2.2.1 "Nope" [] (by decide),
   decode_rejects_malformed.2.2.2.2.2.2.2.1 "SigstorePubKeyVerify"
      [("image", Json.arr [])] rfl,
   decode_rejects_malformed.2.2.2.2.2.2.2.2.1
      [("image", Json.str "img"), ("pub_keys", Json.null)] rfl,
   decode_rejects_malformed.2.2.2.2.2.2.2.2.2
      [("image", Json.str "img")] rfl⟩
